import Mathlib

/-!
# Verification of the lvm-backup orchestrator (`src/lvm-backup.py`)

Shallow embedding of the backup lifecycle of `lvm-backup.py`.  External
commands are the only I/O boundary of the program: every run of
`runCommand` / `runCommandRetVal` is recorded as an event in a trace, and
the exit code of each command is supplied by an environment `Env` (the
external world: volume manager, mount table, restic).  Python's
`try/finally` blocks are modelled by `tryFin`, with Python's semantics
that an exception raised in the `finally` block replaces the original
one.  Logging calls are omitted (they do not affect control flow); the
construction of a `BackupException` object that is never raised (a
recurring slip in the source) is recorded as an `Ev.exn` trace event so
that "constructed but not raised" is observable.
-/

/-- A trace event: an external command handed to the command executor
(`subprocess.Popen(cmd, shell=True)`), a directory creation
(`os.makedirs`), or the construction of a `BackupException` object that
is *not* raised (source builds the object and discards it). -/
inductive Ev where
  | cmd (c : String)
  | mkdir (d : String)
  | exn (msg : String)
deriving DecidableEq, Repr

/-- The external world: exit code of each command string, and whether a
directory already exists (`os.path.isdir`). -/
structure Env where
  exit : String → Nat
  isdir : String → Bool

/-- Computation model: a computation appends trace events and either
returns a value or raises a `BackupException` (carried as its message). -/
def M (α : Type) : Type := List Ev → Except String α × List Ev

def M.pure (a : α) : M α := fun t => (Except.ok a, t)

def M.bind (x : M α) (f : α → M β) : M β := fun t =>
  match x t with
  | (Except.ok a, t') => f a t'
  | (Except.error e, t') => (Except.error e, t')

/-- Python `try: body finally: fin`.  The `finally` block always runs; an
exception raised inside it replaces the one from the body. -/
def tryFin (body : M α) (fin : M Unit) : M α := fun t =>
  match body t with
  | (Except.ok a, t') =>
    (match fin t' with
     | (Except.ok _, t'') => (Except.ok a, t'')
     | (Except.error e, t'') => (Except.error e, t''))
  | (Except.error e, t') =>
    (match fin t' with
     | (Except.ok _, t'') => (Except.error e, t'')
     | (Except.error e2, t'') => (Except.error e2, t''))

/-- `runCommandRetVal(cmd)` (probe mode): run the command, return its
exit code, never raise. -/
def runCommandRetVal (env : Env) (c : String) : M Nat := fun t =>
  (Except.ok (env.exit c), t ++ [Ev.cmd c])

/-- `runCommand(cmd)` (must-succeed mode): run the command and raise
`BackupException("Execution failed: " + str(args))` on a non-zero exit
code (the message carries the command here; Python renders the argument
tuple around it, which no claim depends on). -/
def runCommand (env : Env) (c : String) : M Unit := fun t =>
  if env.exit c = 0 then (Except.ok (), t ++ [Ev.cmd c])
  else (Except.error ("Execution failed: " ++ c), t ++ [Ev.cmd c])

/-- Record the construction of a `BackupException` object that the source
builds but never raises. -/
def emitExn (msg : String) : M Unit := fun t => (Except.ok (), t ++ [Ev.exn msg])

/-- `os.makedirs(dir, exist_ok=True)`. -/
def emitMkdir (d : String) : M Unit := fun t => (Except.ok (), t ++ [Ev.mkdir d])

/-- Python `lv.replace("-", "--")`: every dash doubled (used by
`LVolume.to_device`). -/
def dashEscaped (s : String) : String :=
  String.mk (s.data.foldr (fun c acc => if c = '-' then '-' :: '-' :: acc else c :: acc) [])

/-- `class LVolume`: one logical volume, with the `options` list of its
source and the `raw` disk-image flag. -/
structure LVolume where
  vg : String
  lv : String
  options : List String := []
  raw : Bool := false
deriving DecidableEq, Repr

/-- `class Source`: Python stores `LVolume(vg, lv)` (no options on the
volume) plus the source's own options list. -/
structure Source where
  volume : LVolume
  options : List String
deriving DecidableEq, Repr

/-- `class Snapshot` data: the derived `<lv>_snapshot` volume. -/
structure Snapshot where
  source : Source
  snapshot_lv : String
  volume : LVolume
deriving DecidableEq, Repr

/-- Configuration object (`class Config`), after YAML parsing. -/
structure Config where
  mounts_dir : String
  target_vg : String
  target_lv : String
  password : String
  hourlySnapshots : Option Nat
  dailySnapshots : Option Nat
  weeklySnapshots : Option Nat
  monthlySnapshots : Option Nat
  yearlySnapshots : Option Nat
  prune : Bool
  sources : List Source
deriving DecidableEq, Repr

/-- `class Backup`: holds the current source, its snapshot, and the
target volume hosting the restic repository. -/
structure Backup where
  source : Source
  snapshot : Snapshot
  volume : LVolume
deriving DecidableEq, Repr

namespace LVolume

/-- `to_mount_dir`: `"%s/%s/%s" % (config.mounts_dir, vg, lv)`. -/
def to_mount_dir (cfg : Config) (v : LVolume) : String :=
  cfg.mounts_dir ++ "/" ++ v.vg ++ "/" ++ v.lv

/-- `to_device`: `"/dev/mapper/%s-%s" % (vg, lv.replace("-", "--"))`. -/
def to_device (v : LVolume) : String :=
  "/dev/mapper/" ++ v.vg ++ "-" ++ dashEscaped v.lv

/-- The device `is_mounted`/`mount` operate on: partition 1 for raw disks. -/
def eff_device (v : LVolume) : String :=
  if v.raw then v.to_device ++ "1" else v.to_device

/-- The `lvs` existence probe command. -/
def lvs_cmd (v : LVolume) : String := "lvs " ++ v.to_device

/-- The `lvremove` command. -/
def lvremove_cmd (v : LVolume) : String := "lvremove -y " ++ v.vg ++ "/" ++ v.lv

/-- The `findmnt` mount probe command. -/
def findmnt_cmd (v : LVolume) : String := "findmnt " ++ v.eff_device

/-- The `kpartx -v -a` partition-map add command (`map_raw`). -/
def kpartx_add_cmd (v : LVolume) : String := "kpartx -v -a " ++ v.to_device

/-- The `kpartx -d` partition-map delete command (`unmap_raw`). -/
def kpartx_del_cmd (v : LVolume) : String := "kpartx -d " ++ v.to_device

/-- Mount options: `-o ro` when read-only, `-o nouuid` for xfs sources. -/
def mount_options (v : LVolume) (ro : Bool) : String :=
  if ro then "-o ro" else if "xfs" ∈ v.options then "-o nouuid" else ""

/-- The mount command: `"mount %s %s %s" % (options, device, mount_dir)`. -/
def mount_cmd (cfg : Config) (v : LVolume) (ro : Bool) : String :=
  "mount " ++ v.mount_options ro ++ " " ++ v.eff_device ++ " " ++ v.to_mount_dir cfg

/-- The umount command: `"umount %s" % mount_dir`. -/
def umount_cmd (cfg : Config) (v : LVolume) : String :=
  "umount " ++ v.to_mount_dir cfg

/-- `exists(self)`: probe `lvs <device>`, true iff exit code 0. -/
def existsM (env : Env) (v : LVolume) : M Bool :=
  M.bind (runCommandRetVal env v.lvs_cmd) fun r => M.pure (r == 0)

/-- `remove(self)`: `lvremove -y vg/lv`, returns success boolean. -/
def removeM (env : Env) (v : LVolume) : M Bool :=
  M.bind (runCommandRetVal env v.lvremove_cmd) fun r => M.pure (r == 0)

/-- `is_mounted(self)`: probe `findmnt <device>` (partition 1 if raw). -/
def is_mounted (env : Env) (v : LVolume) : M Bool :=
  M.bind (runCommandRetVal env v.findmnt_cmd) fun r => M.pure (r == 0)

/-- `map_raw(self)`. -/
def map_raw (env : Env) (v : LVolume) : M Unit := runCommand env v.kpartx_add_cmd

/-- `unmap_raw(self)`. -/
def unmap_raw (env : Env) (v : LVolume) : M Unit := runCommand env v.kpartx_del_cmd

/-- `mount(self, ro=False)`.  NOTE the source bug kept faithfully: when
the volume is already mounted a `BackupException` is constructed but not
raised (`Ev.exn`), and the function proceeds to create the mount
directory, map the raw partition and run the mount command. -/
def mount (env : Env) (cfg : Config) (v : LVolume) (ro : Bool) : M Unit :=
  M.bind (v.is_mounted env) fun m =>
  M.bind (if m then emitExn ("Volume " ++ v.lv ++ " already mounted. Aborting.") else M.pure ()) fun _ =>
  M.bind (if env.isdir (v.to_mount_dir cfg) then M.pure () else emitMkdir (v.to_mount_dir cfg)) fun _ =>
  M.bind (if v.raw then v.map_raw env else M.pure ()) fun _ =>
  runCommand env (v.mount_cmd cfg ro)

/-- `umount(self)`: umount the mount dir, then delete the partition map
if raw. -/
def umount (env : Env) (cfg : Config) (v : LVolume) : M Unit :=
  M.bind (runCommand env (v.umount_cmd cfg)) fun _ =>
  if v.raw then v.unmap_raw env else M.pure ()

end LVolume

namespace Source

/-- `Source.__init__(vg, lv, options)`: stores `LVolume(vg, lv)` and the
options (empty list when falsy), then calls `check_exists`, whose boolean
result is DISCARDED by the source — construction never fails. -/
def initM (env : Env) (vg lv : String) (options : Option (List String)) : M Source :=
  let s : Source := { volume := { vg := vg, lv := lv }, options := options.getD [] }
  M.bind (s.volume.existsM env) fun _ => M.pure s

end Source

namespace Snapshot

/-- `Snapshot.__init__(source)`: derived name `<lv>_snapshot`; the
snapshot volume carries the source's options (raw stays False). -/
def make (source : Source) : Snapshot :=
  { source := source
    snapshot_lv := source.volume.lv ++ "_snapshot"
    volume := { vg := source.volume.vg, lv := source.volume.lv ++ "_snapshot",
                options := source.options } }

/-- The `lvcreate` command of `Snapshot.create`:
`"lvcreate -s -n %s -L 1G %s/%s" % (snapshot_lv, vg, lv)`. -/
def create_cmd (s : Snapshot) : String :=
  "lvcreate -s -n " ++ s.snapshot_lv ++ " -L 1G " ++ s.source.volume.vg ++ "/" ++ s.source.volume.lv

/-- `create(self)`: if the snapshot volume exists, remove it first; then
run the snapshot-create command with the fixed 1 GiB extent size. -/
def create (env : Env) (s : Snapshot) : M Unit :=
  M.bind (s.volume.existsM env) fun e =>
  M.bind (if e then M.bind (s.volume.removeM env) (fun _ => M.pure ()) else M.pure ()) fun _ =>
  runCommand env s.create_cmd

/-- `remove(self)`. -/
def remove (env : Env) (s : Snapshot) : M Bool := s.volume.removeM env

end Snapshot

/-- The target volume hosting the restic repository:
`LVolume(config.target_vg, config.target_lv)`. -/
def targetVolume (cfg : Config) : LVolume :=
  { vg := cfg.target_vg, lv := cfg.target_lv }

/-- The repository liveness probe of `Backup.__init__`:
`"RESTIC_PASSWORD='%s' restic -r %s snapshots"`. -/
def restic_snapshots_cmd (cfg : Config) : String :=
  "RESTIC_PASSWORD='" ++ cfg.password ++ "' restic -r "
    ++ (targetVolume cfg).to_mount_dir cfg ++ " snapshots"

/-- The backup command of `Backup.__run_backup`:
`"RESTIC_PASSWORD='%s' restic -r %s backup %s"` — note that the whole
string, password included, is handed to `subprocess.Popen(..., shell=True)`. -/
def restic_backup_cmd (cfg : Config) (sn : Snapshot) : String :=
  "RESTIC_PASSWORD='" ++ cfg.password ++ "' restic -r "
    ++ (targetVolume cfg).to_mount_dir cfg ++ " backup " ++ sn.volume.to_mount_dir cfg

/-- Message of the repository-not-initialized `BackupException`. The
source interpolates the Python BUILTIN `dir` (a function object), not a
variable, so the message contains the repr of that builtin. -/
def repoNotInitMsg : String :=
  "Restic repository <built-in function dir> not properly initialized."

namespace Backup

/-- `Backup.__init__(source, snapshot)`: unmount the target if mounted,
mount it read-write, then probe the repository with the restic
`snapshots` command.  NOTE two source bugs kept faithfully: the check
`if not runCommandRetVal(...)` is INVERTED (Python `not 0` is true, so
the error object is built exactly when the probe SUCCEEDS), and the
`BackupException` is constructed but never raised (`Ev.exn`). -/
def init (env : Env) (cfg : Config) (source : Source) (snapshot : Snapshot) : M Backup :=
  let volume := targetVolume cfg
  M.bind (volume.is_mounted env) fun m =>
  M.bind (if m then volume.umount env cfg else M.pure ()) fun _ =>
  M.bind (volume.mount env cfg false) fun _ =>
  M.bind (runCommandRetVal env (restic_snapshots_cmd cfg)) fun r =>
  M.bind (if r = 0 then emitExn repoNotInitMsg else M.pure ()) fun _ =>
  M.pure { source := source, snapshot := snapshot, volume := volume }

/-- `__run_backup(self)`. -/
def run_backup (env : Env) (cfg : Config) (b : Backup) : M Unit :=
  runCommand env (restic_backup_cmd cfg b.snapshot)

/-- The effective backup source of `Backup.backup`: for a `raw` source, a
fresh raw view over the snapshot's vg/lv (options default to `[]`);
otherwise the snapshot volume itself. -/
def eff_source_volume (b : Backup) : LVolume :=
  if "raw" ∈ b.source.options
  then { vg := b.snapshot.volume.vg, lv := b.snapshot.volume.lv, raw := true }
  else b.snapshot.volume

/-- `backup(self)`: mount the effective source volume, then run the
backup with a guaranteed unmount (`try/finally`). -/
def backup (env : Env) (cfg : Config) (b : Backup) : M Unit :=
  let source_volume := b.eff_source_volume
  M.bind (source_volume.mount env cfg false) fun _ =>
  tryFin (b.run_backup env cfg) (source_volume.umount env cfg)

/-- `close(self)`: unmount the target, remount it read-only. -/
def close (env : Env) (cfg : Config) (b : Backup) : M Unit :=
  M.bind (b.volume.umount env cfg) fun _ => b.volume.mount env cfg true

end Backup

/-- One pass of the `for source in config.sources` loop of the
module-level `backup()` function: create the snapshot, open the
repository session, and run the backup with session close and snapshot
removal in a `finally` block. -/
def processSource (env : Env) (cfg : Config) (source : Source) : M Unit :=
  let snapshot := Snapshot.make source
  M.bind (snapshot.create env) fun _ =>
  M.bind (Backup.init env cfg source snapshot) fun b =>
  tryFin (b.backup env cfg)
    (M.bind (b.close env cfg) fun _ =>
     M.bind (snapshot.remove env) fun _ => M.pure ())

/-- The `for` loop of the module-level `backup()` over a source list; a
propagating exception aborts the remaining iterations. -/
def backupList (env : Env) (cfg : Config) : List Source → M Unit
  | [] => M.pure ()
  | s :: rest => M.bind (processSource env cfg s) fun _ => backupList env cfg rest

/-- The module-level `backup()` command. -/
def backupMain (env : Env) (cfg : Config) : M Unit :=
  backupList env cfg cfg.sources

/-! ## Failure scenario for one source (claims C1, C2)

`FailScenario env cfg src` fixes the external world for the run of one
source: the snapshot volume does not pre-exist, the target volume is not
mounted, directories exist, every mount/umount/kpartx/lvcreate command
succeeds, the repository probe succeeds — and the restic *backup*
invocation for the source exits non-zero. -/

/-- The external world in which the backup invocation of `src` fails and
everything else behaves normally. -/
abbrev FailScenario (env : Env) (cfg : Config) (src : Source) : Prop :=
  env.exit (Snapshot.make src).volume.lvs_cmd ≠ 0 ∧
  env.exit (Snapshot.make src).create_cmd = 0 ∧
  env.exit (targetVolume cfg).findmnt_cmd ≠ 0 ∧
  env.isdir ((targetVolume cfg).to_mount_dir cfg) = true ∧
  env.exit ((targetVolume cfg).mount_cmd cfg false) = 0 ∧
  env.exit (restic_snapshots_cmd cfg) = 0 ∧
  env.exit (Backup.eff_source_volume { source := src, snapshot := Snapshot.make src, volume := targetVolume cfg }).findmnt_cmd ≠ 0 ∧
  env.isdir ((Backup.eff_source_volume { source := src, snapshot := Snapshot.make src, volume := targetVolume cfg }).to_mount_dir cfg) = true ∧
  env.exit (Backup.eff_source_volume { source := src, snapshot := Snapshot.make src, volume := targetVolume cfg }).kpartx_add_cmd = 0 ∧
  env.exit ((Backup.eff_source_volume { source := src, snapshot := Snapshot.make src, volume := targetVolume cfg }).mount_cmd cfg false) = 0 ∧
  env.exit (restic_backup_cmd cfg (Snapshot.make src)) ≠ 0 ∧
  env.exit ((Backup.eff_source_volume { source := src, snapshot := Snapshot.make src, volume := targetVolume cfg }).umount_cmd cfg) = 0 ∧
  env.exit (Backup.eff_source_volume { source := src, snapshot := Snapshot.make src, volume := targetVolume cfg }).kpartx_del_cmd = 0 ∧
  env.exit ((targetVolume cfg).umount_cmd cfg) = 0 ∧
  env.exit ((targetVolume cfg).mount_cmd cfg true) = 0

/-- The full command/event trace of one source's run in a `FailScenario`:
snapshot creation, session open, mount of the effective source volume,
the failing backup invocation, and then the cleanup — unmount of the
effective source (with partition-map delete if raw), session close
(unmount target, remount read-only), snapshot removal. -/
def failTrace (cfg : Config) (src : Source) : List Ev :=
  let sn := Snapshot.make src
  let tv := targetVolume cfg
  let eff := Backup.eff_source_volume { source := src, snapshot := sn, volume := tv }
  [Ev.cmd sn.volume.lvs_cmd,
   Ev.cmd sn.create_cmd,
   Ev.cmd tv.findmnt_cmd,
   Ev.cmd tv.findmnt_cmd,
   Ev.cmd (tv.mount_cmd cfg false),
   Ev.cmd (restic_snapshots_cmd cfg),
   Ev.exn repoNotInitMsg,
   Ev.cmd eff.findmnt_cmd] ++
  (if eff.raw then [Ev.cmd eff.kpartx_add_cmd] else []) ++
  [Ev.cmd (eff.mount_cmd cfg false),
   Ev.cmd (restic_backup_cmd cfg sn),
   Ev.cmd (eff.umount_cmd cfg)] ++
  (if eff.raw then [Ev.cmd eff.kpartx_del_cmd] else []) ++
  [Ev.cmd (tv.umount_cmd cfg),
   Ev.cmd tv.findmnt_cmd,
   Ev.cmd (tv.mount_cmd cfg true),
   Ev.cmd sn.volume.lvremove_cmd]

/-- Master lemma: in a `FailScenario`, the per-source run raises the
backup-command failure and its trace is exactly `failTrace`. -/
lemma processSource_fail (env : Env) (cfg : Config) (src : Source)
    (h : FailScenario env cfg src) :
    processSource env cfg src []
      = (Except.error ("Execution failed: " ++ restic_backup_cmd cfg (Snapshot.make src)),
         failTrace cfg src) := by
  obtain ⟨h1, h2, h3, h4, h5, h6, h7, h8, h9, h10, h11, h12, h13, h14, h15⟩ := h
  by_cases hr : "raw" ∈ src.options <;>
    simp_all [processSource, Snapshot.create, Snapshot.remove, Backup.init, Backup.backup,
      Backup.close, Backup.run_backup, Backup.eff_source_volume,
      LVolume.existsM, LVolume.removeM, LVolume.is_mounted, LVolume.mount, LVolume.umount,
      LVolume.map_raw, LVolume.unmap_raw,
      M.bind, M.pure, tryFin, runCommand, runCommandRetVal, emitExn, emitMkdir,
      targetVolume, Snapshot.make, failTrace]

/-! String-disequality helpers: two command strings with different
characters at some position inside their literal prefixes are different. -/

lemma ne_of_data_getElem (n : Nat) (s t : String) (h : s.data[n]? ≠ t.data[n]?) : s ≠ t :=
  fun e => h (by rw [e])

lemma append_data_getElem (p x : String) (n : Nat) (h : n < p.data.length) :
    (p ++ x).data[n]? = p.data[n]? := by
  rw [String.data_append]
  exact List.getElem?_append_left h

lemma ne_of_head_getElem (p q x y : String) (n : Nat) (hp : n < p.data.length)
    (hq : n < q.data.length) (h : p.data[n]? ≠ q.data[n]?) : p ++ x ≠ q ++ y := by
  apply ne_of_data_getElem n
  rw [append_data_getElem _ _ _ hp, append_data_getElem _ _ _ hq]
  exact h

lemma lvcreate_ne_lvs (x y : String) : "lvcreate -s -n " ++ x ≠ "lvs " ++ y :=
  ne_of_head_getElem _ _ _ _ 2 (by decide) (by decide) (by decide)

lemma lvcreate_ne_findmnt (x y : String) : "lvcreate -s -n " ++ x ≠ "findmnt " ++ y :=
  ne_of_head_getElem _ _ _ _ 0 (by decide) (by decide) (by decide)

lemma lvcreate_ne_mount (x y : String) : "lvcreate -s -n " ++ x ≠ "mount " ++ y :=
  ne_of_head_getElem _ _ _ _ 0 (by decide) (by decide) (by decide)

lemma lvcreate_ne_restic (x y : String) : "lvcreate -s -n " ++ x ≠ "RESTIC_PASSWORD='" ++ y :=
  ne_of_head_getElem _ _ _ _ 0 (by decide) (by decide) (by decide)

lemma lvcreate_ne_umount (x y : String) : "lvcreate -s -n " ++ x ≠ "umount " ++ y :=
  ne_of_head_getElem _ _ _ _ 0 (by decide) (by decide) (by decide)

lemma lvcreate_ne_kpartx_add (x y : String) : "lvcreate -s -n " ++ x ≠ "kpartx -v -a " ++ y :=
  ne_of_head_getElem _ _ _ _ 0 (by decide) (by decide) (by decide)

lemma lvcreate_ne_kpartx_del (x y : String) : "lvcreate -s -n " ++ x ≠ "kpartx -d " ++ y :=
  ne_of_head_getElem _ _ _ _ 0 (by decide) (by decide) (by decide)

lemma lvcreate_ne_lvremove (x y : String) : "lvcreate -s -n " ++ x ≠ "lvremove -y " ++ y :=
  ne_of_head_getElem _ _ _ _ 2 (by decide) (by decide) (by decide)

/-- C1: for every source whose backup invocation fails (restic backup
exits non-zero) in an otherwise-normal environment, the per-source run
surfaces the failure as an error and, before doing so, unmounts the
effective source volume, closes the repository session (unmounts the
target and remounts it read-only) and removes the snapshot: the error
result carries exactly the `failTrace` event sequence, in which the
cleanup commands follow the failing backup command. -/
theorem C1_cleanup_on_backup_failure (env : Env) (cfg : Config) (src : Source)
    (h : FailScenario env cfg src) :
    processSource env cfg src []
      = (Except.error ("Execution failed: " ++ restic_backup_cmd cfg (Snapshot.make src)),
         failTrace cfg src)
    ∧ List.Sublist
        [Ev.cmd (restic_backup_cmd cfg (Snapshot.make src)),
         Ev.cmd ((Backup.eff_source_volume { source := src, snapshot := Snapshot.make src, volume := targetVolume cfg }).umount_cmd cfg),
         Ev.cmd ((targetVolume cfg).umount_cmd cfg),
         Ev.cmd ((targetVolume cfg).mount_cmd cfg true),
         Ev.cmd (Snapshot.make src).volume.lvremove_cmd]
        (failTrace cfg src) := by
  refine ⟨processSource_fail env cfg src h, ?_⟩
  by_cases hr : "raw" ∈ src.options <;>
    simp only [failTrace, Backup.eff_source_volume, hr, if_pos, if_neg, Snapshot.make,
      ite_true, ite_false, List.append_assoc, List.cons_append, List.nil_append] <;>
    repeat first
      | exact List.nil_sublist _
      | apply List.Sublist.cons₂
      | apply List.Sublist.cons

/-- Concrete instance of the C1 failure scenario. -/
def exCfg : Config :=
  { mounts_dir := "/mnt", target_vg := "tvg", target_lv := "tlv", password := "pw",
    hourlySnapshots := none, dailySnapshots := none, weeklySnapshots := none,
    monthlySnapshots := none, yearlySnapshots := none, prune := false, sources := [] }

/-- Concrete source `vg0/data` with no options. -/
def exSrc : Source := { volume := { vg := "vg0", lv := "data" }, options := [] }

/-- Concrete environment: the restic backup command fails (exit 1), the
existence/mount probes report absent/unmounted, everything else exits 0. -/
def exEnv : Env :=
  { exit := fun c =>
      if c = restic_backup_cmd exCfg (Snapshot.make exSrc) then 1
      else if c = (Snapshot.make exSrc).volume.lvs_cmd then 1
      else if c = (targetVolume exCfg).findmnt_cmd then 1
      else if c = (Snapshot.make exSrc).volume.findmnt_cmd then 1
      else 0
    isdir := fun _ => true }

/-- Witness for C1 at the concrete failure scenario. -/
theorem C1_cleanup_on_backup_failure_witness :
    FailScenario exEnv exCfg exSrc
    ∧ (processSource exEnv exCfg exSrc []
        = (Except.error ("Execution failed: " ++ restic_backup_cmd exCfg (Snapshot.make exSrc)),
           failTrace exCfg exSrc)
      ∧ List.Sublist
          [Ev.cmd (restic_backup_cmd exCfg (Snapshot.make exSrc)),
           Ev.cmd ((Backup.eff_source_volume { source := exSrc, snapshot := Snapshot.make exSrc, volume := targetVolume exCfg }).umount_cmd exCfg),
           Ev.cmd ((targetVolume exCfg).umount_cmd exCfg),
           Ev.cmd ((targetVolume exCfg).mount_cmd exCfg true),
           Ev.cmd (Snapshot.make exSrc).volume.lvremove_cmd]
          (failTrace exCfg exSrc)) :=
  ⟨by decide, C1_cleanup_on_backup_failure exEnv exCfg exSrc (by decide)⟩

/-- C2: when the first source's backup fails, the whole run is exactly
the run of that first source alone — it errors out, and for every later
source (with a distinct snapshot-create command) no snapshot-create
command is ever executed. -/
theorem C2_fail_fast_across_sources (env : Env) (cfg : Config) (src : Source)
    (rest : List Source) (h : FailScenario env cfg src) :
    backupList env cfg (src :: rest) [] = processSource env cfg src []
    ∧ (backupList env cfg (src :: rest) []).1
        = Except.error ("Execution failed: " ++ restic_backup_cmd cfg (Snapshot.make src))
    ∧ ∀ s2 ∈ rest, (Snapshot.make s2).create_cmd ≠ (Snapshot.make src).create_cmd →
        Ev.cmd ((Snapshot.make s2).create_cmd) ∉ (backupList env cfg (src :: rest) []).2 := by
  have hm := processSource_fail env cfg src h
  have ht : backupList env cfg (src :: rest) []
      = (Except.error ("Execution failed: " ++ restic_backup_cmd cfg (Snapshot.make src)),
         failTrace cfg src) := by
    simp [backupList, M.bind, hm]
  refine ⟨by rw [ht, hm], by rw [ht], ?_⟩
  intro s2 _ hne hmem
  rw [ht] at hmem
  by_cases hr : "raw" ∈ src.options <;>
    (simp only [failTrace, Backup.eff_source_volume, Snapshot.make, Snapshot.create_cmd,
       LVolume.lvs_cmd, LVolume.lvremove_cmd, LVolume.findmnt_cmd, LVolume.kpartx_add_cmd,
       LVolume.kpartx_del_cmd, LVolume.mount_cmd, LVolume.umount_cmd, LVolume.mount_options,
       LVolume.eff_device, restic_snapshots_cmd, restic_backup_cmd, targetVolume, hr,
       ite_true, ite_false, List.not_mem_nil, String.append_assoc] at hmem hne;
     simp [hne, lvcreate_ne_lvs, lvcreate_ne_findmnt, lvcreate_ne_mount,
       lvcreate_ne_restic, lvcreate_ne_umount, lvcreate_ne_kpartx_add,
       lvcreate_ne_kpartx_del, lvcreate_ne_lvremove, List.mem_append, List.mem_cons] at hmem)

/-- A second concrete source, distinct from `exSrc`. -/
def exSrc2 : Source := { volume := { vg := "vg1", lv := "other" }, options := [] }

/-- Witness for C2: concrete two-source configuration in which the first
source's backup fails. -/
theorem C2_fail_fast_across_sources_witness :
    FailScenario exEnv exCfg exSrc
    ∧ (backupList exEnv exCfg (exSrc :: [exSrc2]) [] = processSource exEnv exCfg exSrc []
      ∧ (backupList exEnv exCfg (exSrc :: [exSrc2]) []).1
          = Except.error ("Execution failed: " ++ restic_backup_cmd exCfg (Snapshot.make exSrc))
      ∧ ∀ s2 ∈ [exSrc2], (Snapshot.make s2).create_cmd ≠ (Snapshot.make exSrc).create_cmd →
          Ev.cmd ((Snapshot.make s2).create_cmd) ∉ (backupList exEnv exCfg (exSrc :: [exSrc2]) []).2) :=
  ⟨by decide, C2_fail_fast_across_sources exEnv exCfg exSrc [exSrc2] (by decide)⟩

/-- Environment in which every command exits 0 (in particular `findmnt`
reports everything as mounted) and no mount directory exists yet. -/
def envAll0 : Env := { exit := fun _ => 0, isdir := fun _ => false }

/-- A raw disk-image volume `vg0/disk0`. -/
def rawDisk : LVolume := { vg := "vg0", lv := "disk0", raw := true }

/-- C3 (code bug): mounting an already-mounted volume (`findmnt` exits 0)
does NOT raise: the `BackupException` is constructed and dropped, and the
call proceeds to create the mount directory, map the raw partition and
run the mount command, returning success. -/
theorem C3_already_mounted_mount_proceeds :
    LVolume.mount envAll0 exCfg rawDisk false []
      = (Except.ok (),
         [Ev.cmd "findmnt /dev/mapper/vg0-disk01",
          Ev.exn "Volume disk0 already mounted. Aborting.",
          Ev.mkdir "/mnt/vg0/disk0",
          Ev.cmd "kpartx -v -a /dev/mapper/vg0-disk0",
          Ev.cmd "mount  /dev/mapper/vg0-disk01 /mnt/vg0/disk0"])
    ∧ envAll0.exit rawDisk.findmnt_cmd = 0 := ⟨rfl, rfl⟩

/-- Environment in which every command exits 1: in particular the `lvs`
existence probe reports the volume absent. -/
def envAbsent : Env := { exit := fun _ => 1, isdir := fun _ => true }

/-- C4 (code bug): constructing a `Source` whose volume does not exist
(`lvs` exits non-zero) succeeds and returns the Source object — the
result of `check_exists` is discarded, no error is raised. -/
theorem C4_missing_volume_source_constructed :
    Source.initM envAbsent "vg0" "ghost" none []
      = (Except.ok { volume := { vg := "vg0", lv := "ghost" }, options := [] },
         [Ev.cmd "lvs /dev/mapper/vg0-ghost"])
    ∧ envAbsent.exit "lvs /dev/mapper/vg0-ghost" = 1 := ⟨rfl, rfl⟩

/-- C5 (amended): repository-session open never raises, whatever the
outcome of the restic `snapshots` liveness probe; and — because the
source's condition `if not runCommandRetVal(...)` is inverted — the
repository-not-initialized error object is constructed exactly when the
probe SUCCEEDS (exit 0), not when it fails; it is never raised. -/
theorem C5_repo_check_never_raises (env : Env) (cfg : Config) (src : Source) (sn : Snapshot)
    (h1 : env.exit (targetVolume cfg).findmnt_cmd ≠ 0)
    (h2 : env.isdir ((targetVolume cfg).to_mount_dir cfg) = true)
    (h3 : env.exit ((targetVolume cfg).mount_cmd cfg false) = 0) :
    Backup.init env cfg src sn []
      = (Except.ok { source := src, snapshot := sn, volume := targetVolume cfg },
         [Ev.cmd (targetVolume cfg).findmnt_cmd,
          Ev.cmd (targetVolume cfg).findmnt_cmd,
          Ev.cmd ((targetVolume cfg).mount_cmd cfg false),
          Ev.cmd (restic_snapshots_cmd cfg)] ++
         (if env.exit (restic_snapshots_cmd cfg) = 0 then [Ev.exn repoNotInitMsg] else [])) := by
  by_cases hc : env.exit (restic_snapshots_cmd cfg) = 0 <;>
    simp_all [Backup.init, LVolume.is_mounted, LVolume.mount, LVolume.umount,
      M.bind, M.pure, runCommand, runCommandRetVal, emitExn, emitMkdir, targetVolume]

/-- Environment for C5: every command exits 1 — in particular the restic
`snapshots` liveness probe FAILS — except the target mount command. -/
def envC5 : Env :=
  { exit := fun c => if c = ((targetVolume exCfg).mount_cmd exCfg false) then 0 else 1
    isdir := fun _ => true }

/-- C5 counterexample to the claim as stated: at a concrete input where
the liveness probe fails (exit 1), session open completes without
raising AND the trace contains no exception-construction event at all —
the error object is not even constructed on the failure path. -/
theorem C5_check_failure_constructs_nothing :
    envC5.exit (restic_snapshots_cmd exCfg) = 1
    ∧ Backup.init envC5 exCfg exSrc (Snapshot.make exSrc) []
      = (Except.ok { source := exSrc, snapshot := Snapshot.make exSrc, volume := targetVolume exCfg },
         [Ev.cmd "findmnt /dev/mapper/tvg-tlv",
          Ev.cmd "findmnt /dev/mapper/tvg-tlv",
          Ev.cmd "mount  /dev/mapper/tvg-tlv /mnt/tvg/tlv",
          Ev.cmd "RESTIC_PASSWORD='pw' restic -r /mnt/tvg/tlv snapshots"]) :=
  ⟨by decide, by rfl⟩

/-- Witness for C5 at the concrete failing-probe environment. -/
theorem C5_repo_check_never_raises_witness :
    (envC5.exit (targetVolume exCfg).findmnt_cmd ≠ 0
    ∧ envC5.isdir ((targetVolume exCfg).to_mount_dir exCfg) = true
    ∧ envC5.exit ((targetVolume exCfg).mount_cmd exCfg false) = 0)
    ∧ Backup.init envC5 exCfg exSrc (Snapshot.make exSrc) []
      = (Except.ok { source := exSrc, snapshot := Snapshot.make exSrc, volume := targetVolume exCfg },
         [Ev.cmd (targetVolume exCfg).findmnt_cmd,
          Ev.cmd (targetVolume exCfg).findmnt_cmd,
          Ev.cmd ((targetVolume exCfg).mount_cmd exCfg false),
          Ev.cmd (restic_snapshots_cmd exCfg)] ++
         (if envC5.exit (restic_snapshots_cmd exCfg) = 0 then [Ev.exn repoNotInitMsg] else [])) :=
  ⟨⟨by decide, by decide, by decide⟩,
   C5_repo_check_never_raises envC5 exCfg exSrc (Snapshot.make exSrc)
     (by decide) (by decide) (by decide)⟩

/-- C7: for a raw volume, `mount` maps the partition (`kpartx -v -a`)
BEFORE running the mount command, the mount command targets partition 1
(device path with suffix "1"), and `umount` deletes the partition map
(`kpartx -d`) AFTER the umount command. -/
theorem C7_raw_mapping (env : Env) (cfg : Config) (v : LVolume) (hraw : v.raw = true)
    (hm : env.exit v.findmnt_cmd ≠ 0)
    (hd : env.isdir (v.to_mount_dir cfg) = true)
    (hk : env.exit v.kpartx_add_cmd = 0)
    (hmt : env.exit (v.mount_cmd cfg false) = 0)
    (hu : env.exit (v.umount_cmd cfg) = 0)
    (hkd : env.exit v.kpartx_del_cmd = 0) :
    v.mount env cfg false []
      = (Except.ok (), [Ev.cmd v.findmnt_cmd, Ev.cmd v.kpartx_add_cmd, Ev.cmd (v.mount_cmd cfg false)])
    ∧ v.mount_cmd cfg false
      = "mount " ++ v.mount_options false ++ " " ++ (v.to_device ++ "1") ++ " " ++ v.to_mount_dir cfg
    ∧ v.umount env cfg []
      = (Except.ok (), [Ev.cmd (v.umount_cmd cfg), Ev.cmd v.kpartx_del_cmd]) := by
  refine ⟨?_, ?_, ?_⟩
  · simp_all [LVolume.mount, LVolume.is_mounted, LVolume.map_raw,
      M.bind, M.pure, runCommand, runCommandRetVal, emitExn, emitMkdir]
  · simp [LVolume.mount_cmd, LVolume.eff_device, hraw]
  · simp_all [LVolume.umount, LVolume.unmap_raw, M.bind, M.pure, runCommand]

/-- Environment for the C7 witness: the volume is not mounted, all other
commands succeed. -/
def envC7 : Env := { exit := fun c => if c = rawDisk.findmnt_cmd then 1 else 0, isdir := fun _ => true }

/-- Witness for C7 at the concrete raw disk volume. -/
theorem C7_raw_mapping_witness :
    (rawDisk.raw = true
    ∧ envC7.exit rawDisk.findmnt_cmd ≠ 0
    ∧ envC7.isdir (rawDisk.to_mount_dir exCfg) = true
    ∧ envC7.exit rawDisk.kpartx_add_cmd = 0
    ∧ envC7.exit (rawDisk.mount_cmd exCfg false) = 0
    ∧ envC7.exit (rawDisk.umount_cmd exCfg) = 0
    ∧ envC7.exit rawDisk.kpartx_del_cmd = 0)
    ∧ (rawDisk.mount envC7 exCfg false []
      = (Except.ok (), [Ev.cmd rawDisk.findmnt_cmd, Ev.cmd rawDisk.kpartx_add_cmd, Ev.cmd (rawDisk.mount_cmd exCfg false)])
    ∧ rawDisk.mount_cmd exCfg false
      = "mount " ++ rawDisk.mount_options false ++ " " ++ (rawDisk.to_device ++ "1") ++ " " ++ rawDisk.to_mount_dir exCfg
    ∧ rawDisk.umount envC7 exCfg []
      = (Except.ok (), [Ev.cmd (rawDisk.umount_cmd exCfg), Ev.cmd rawDisk.kpartx_del_cmd])) :=
  ⟨⟨by decide, by decide, by decide, by decide, by decide, by decide, by decide⟩,
   C7_raw_mapping envC7 exCfg rawDisk (by decide) (by decide) (by decide) (by decide)
     (by decide) (by decide) (by decide)⟩

/-! ## Retention (`Backup.cleanup`), password handling, snapshot idempotency -/

/-- One `if config.xxxSnapshots:` block of `Backup.cleanup`: Python
truthiness (`None` and `0` are falsy); the rendered piece is the
f-string `f"--keep-xxx {value} "`, i.e. `flag ++ value ++ " "` with
`flag` the literal including its trailing space. -/
def keepPart (flag : String) : Option Nat → String
  | none => ""
  | some n => if n = 0 then "" else flag ++ toString n ++ " "

/-- The `keep` string accumulated by `Backup.cleanup`. -/
def Backup.cleanup_keep (cfg : Config) : String :=
  keepPart "--keep-hourly " cfg.hourlySnapshots
  ++ keepPart "--keep-daily " cfg.dailySnapshots
  ++ keepPart "--keep-weekly " cfg.weeklySnapshots
  ++ keepPart "--keep-monthly " cfg.monthlySnapshots
  ++ (if cfg.prune then "--prune" else "")

/-- The forget command of `Backup.cleanup`:
`"RESTIC_PASSWORD='%s' restic -r %s forget %s"`. -/
def Backup.forget_cmd (cfg : Config) : String :=
  "RESTIC_PASSWORD='" ++ cfg.password ++ "' restic -r "
    ++ (targetVolume cfg).to_mount_dir cfg ++ " forget " ++ Backup.cleanup_keep cfg

/-- `Backup.cleanup` as a command execution. -/
def Backup.cleanupM (env : Env) (cfg : Config) : M Unit :=
  runCommand env (Backup.forget_cmd cfg)

lemma digitChar_isDigit (m : Nat) (h : m < 10) : (Nat.digitChar m).isDigit = true := by
  interval_cases m <;> decide

lemma toDigitsCore_digits (f : Nat) : ∀ (n : Nat) (ds : List Char),
    (∀ c ∈ ds, c.isDigit = true) → ∀ c ∈ Nat.toDigitsCore 10 f n ds, c.isDigit = true := by
  induction f with
  | zero => intro n ds hds c hc; exact hds c hc
  | succ f ih =>
    intro n ds hds c hc
    simp only [Nat.toDigitsCore] at hc
    by_cases h : n / 10 = 0
    · rw [if_pos h] at hc
      rcases List.mem_cons.mp hc with h1 | h1
      · subst h1; exact digitChar_isDigit _ (Nat.mod_lt _ (by decide))
      · exact hds c h1
    · rw [if_neg h] at hc
      refine ih (n / 10) (Nat.digitChar (n % 10) :: ds) ?_ c hc
      intro c2 hc2
      rcases List.mem_cons.mp hc2 with h1 | h1
      · subst h1; exact digitChar_isDigit _ (Nat.mod_lt _ (by decide))
      · exact hds c2 h1

/-- Every character of the decimal rendering of a natural number is a
digit. -/
lemma toString_nat_digits (n : Nat) : ∀ c ∈ (toString n).data, c.isDigit = true := by
  intro c hc
  exact toDigitsCore_digits (n + 1) n [] (by simp) c hc

lemma keepPart_chars (flag : String) (o : Option Nat) (c : Char)
    (hc : c ∈ (keepPart flag o).data) : c ∈ flag.data ∨ c = ' ' ∨ c.isDigit = true := by
  match o with
  | none => simp [keepPart] at hc
  | some n =>
    by_cases h : n = 0
    · simp [keepPart, h] at hc
    · simp only [keepPart, if_neg h, String.data_append, List.mem_append] at hc
      rcases hc with (h1 | h1) | h1
      · exact Or.inl h1
      · right; right; exact toString_nat_digits n c h1
      · right; left; simpa using h1

/-- When the weekly policy is absent or zero, the keep string contains no
weekly flag (its only possible 'w' would come from that flag). -/
lemma cleanup_keep_no_weekly (cfg : Config)
    (h : cfg.weeklySnapshots = none ∨ cfg.weeklySnapshots = some 0) :
    ¬ ("--keep-weekly".data <:+: (Backup.cleanup_keep cfg).data) := by
  intro hinf
  have hw : 'w' ∈ (Backup.cleanup_keep cfg).data := hinf.subset (by decide)
  have hnone : ∀ c ∈ (Backup.cleanup_keep cfg).data, c ≠ 'w' := by
    intro c hc
    have hwk : keepPart "--keep-weekly " cfg.weeklySnapshots = "" := by
      rcases h with h | h <;> simp [h, keepPart]
    simp only [Backup.cleanup_keep, hwk, String.data_append, List.mem_append] at hc
    rcases hc with (((h1 | h1) | h1) | h1) | h1
    · rcases keepPart_chars _ _ _ h1 with h2 | h2 | h2
      · exact (by decide : ∀ x ∈ "--keep-hourly ".data, x ≠ 'w') c h2
      · subst h2; decide
      · intro he; subst he; exact absurd h2 (by decide)
    · rcases keepPart_chars _ _ _ h1 with h2 | h2 | h2
      · exact (by decide : ∀ x ∈ "--keep-daily ".data, x ≠ 'w') c h2
      · subst h2; decide
      · intro he; subst he; exact absurd h2 (by decide)
    · simp at h1
    · rcases keepPart_chars _ _ _ h1 with h2 | h2 | h2
      · exact (by decide : ∀ x ∈ "--keep-monthly ".data, x ≠ 'w') c h2
      · subst h2; decide
      · intro he; subst he; exact absurd h2 (by decide)
    · by_cases hp : cfg.prune
      · simp only [hp, ite_true] at h1
        exact (by decide : ∀ x ∈ "--prune".data, x ≠ 'w') c h1
      · simp only [hp, ite_false] at h1
        simp at h1
  exact hnone 'w' hw rfl

/-- When the monthly policy is absent or zero, the keep string contains
no monthly flag. -/
lemma cleanup_keep_no_monthly (cfg : Config)
    (h : cfg.monthlySnapshots = none ∨ cfg.monthlySnapshots = some 0) :
    ¬ ("--keep-monthly".data <:+: (Backup.cleanup_keep cfg).data) := by
  intro hinf
  have hw : 'm' ∈ (Backup.cleanup_keep cfg).data := hinf.subset (by decide)
  have hnone : ∀ c ∈ (Backup.cleanup_keep cfg).data, c ≠ 'm' := by
    intro c hc
    have hmo : keepPart "--keep-monthly " cfg.monthlySnapshots = "" := by
      rcases h with h | h <;> simp [h, keepPart]
    simp only [Backup.cleanup_keep, hmo, String.data_append, List.mem_append] at hc
    rcases hc with (((h1 | h1) | h1) | h1) | h1
    · rcases keepPart_chars _ _ _ h1 with h2 | h2 | h2
      · exact (by decide : ∀ x ∈ "--keep-hourly ".data, x ≠ 'm') c h2
      · subst h2; decide
      · intro he; subst he; exact absurd h2 (by decide)
    · rcases keepPart_chars _ _ _ h1 with h2 | h2 | h2
      · exact (by decide : ∀ x ∈ "--keep-daily ".data, x ≠ 'm') c h2
      · subst h2; decide
      · intro he; subst he; exact absurd h2 (by decide)
    · rcases keepPart_chars _ _ _ h1 with h2 | h2 | h2
      · exact (by decide : ∀ x ∈ "--keep-weekly ".data, x ≠ 'm') c h2
      · subst h2; decide
      · intro he; subst he; exact absurd h2 (by decide)
    · simp at h1
    · by_cases hp : cfg.prune
      · simp only [hp, ite_true] at h1
        exact (by decide : ∀ x ∈ "--prune".data, x ≠ 'm') c h1
      · simp only [hp, ite_false] at h1
        simp at h1
  exact hnone 'm' hw rfl

/-- A middle factor of a string concatenation is an infix of it. -/
lemma data_infix_piece (a p b : String) : p.data <:+: (a ++ p ++ b).data :=
  ⟨a.data, b.data, by simp [String.data_append]⟩

/-- The concrete retention configuration of C8's example: hourly=24,
daily=7, weekly=0, monthly absent, prune on. -/
def cfgC8 : Config :=
  { mounts_dir := "/mnt", target_vg := "tvg", target_lv := "tlv", password := "pw",
    hourlySnapshots := some 24, dailySnapshots := some 7, weeklySnapshots := some 0,
    monthlySnapshots := none, yearlySnapshots := none, prune := true, sources := [] }

set_option maxRecDepth 10000 in
/-- C8: the retention invocation carries exactly the keep flags whose
policy values are present and non-zero, plus `--prune` exactly when
requested: every present-and-non-zero policy contributes its
`--keep-xxx <n> ` piece to the forget command; an absent-or-zero
weekly/monthly policy leaves no such flag anywhere in the keep string;
and on the example configuration (hourly=24, daily=7, weekly=0, monthly
absent, prune on) the forget command contains `--keep-hourly 24`,
`--keep-daily 7` and `--prune` but no weekly or monthly flag. -/
theorem C8_retention_flags :
    (∀ (cfg : Config) (n : Nat), cfg.hourlySnapshots = some n → n ≠ 0 →
       ("--keep-hourly " ++ toString n ++ " ").data <:+: (Backup.forget_cmd cfg).data)
    ∧ (∀ (cfg : Config) (n : Nat), cfg.dailySnapshots = some n → n ≠ 0 →
       ("--keep-daily " ++ toString n ++ " ").data <:+: (Backup.forget_cmd cfg).data)
    ∧ (∀ (cfg : Config) (n : Nat), cfg.weeklySnapshots = some n → n ≠ 0 →
       ("--keep-weekly " ++ toString n ++ " ").data <:+: (Backup.forget_cmd cfg).data)
    ∧ (∀ (cfg : Config) (n : Nat), cfg.monthlySnapshots = some n → n ≠ 0 →
       ("--keep-monthly " ++ toString n ++ " ").data <:+: (Backup.forget_cmd cfg).data)
    ∧ (∀ cfg : Config, cfg.prune = true → "--prune".data <:+: (Backup.forget_cmd cfg).data)
    ∧ (∀ cfg : Config, cfg.weeklySnapshots = none ∨ cfg.weeklySnapshots = some 0 →
       ¬ ("--keep-weekly".data <:+: (Backup.cleanup_keep cfg).data))
    ∧ (∀ cfg : Config, cfg.monthlySnapshots = none ∨ cfg.monthlySnapshots = some 0 →
       ¬ ("--keep-monthly".data <:+: (Backup.cleanup_keep cfg).data))
    ∧ ("--keep-hourly 24".data <:+: (Backup.forget_cmd cfgC8).data
       ∧ "--keep-daily 7".data <:+: (Backup.forget_cmd cfgC8).data
       ∧ "--prune".data <:+: (Backup.forget_cmd cfgC8).data
       ∧ ¬ ("--keep-weekly".data <:+: (Backup.forget_cmd cfgC8).data)
       ∧ ¬ ("--keep-monthly".data <:+: (Backup.forget_cmd cfgC8).data)) := by
  refine ⟨?_, ?_, ?_, ?_, ?_, fun cfg h => cleanup_keep_no_weekly cfg h,
    fun cfg h => cleanup_keep_no_monthly cfg h,
    by decide, by decide, by decide, by decide, by decide⟩
  · intro cfg n hh hn
    have he : Backup.forget_cmd cfg
        = ("RESTIC_PASSWORD='" ++ cfg.password ++ "' restic -r "
             ++ (targetVolume cfg).to_mount_dir cfg ++ " forget ")
          ++ ("--keep-hourly " ++ toString n ++ " ")
          ++ (keepPart "--keep-daily " cfg.dailySnapshots
              ++ keepPart "--keep-weekly " cfg.weeklySnapshots
              ++ keepPart "--keep-monthly " cfg.monthlySnapshots
              ++ (if cfg.prune then "--prune" else "")) := by
      simp [Backup.forget_cmd, Backup.cleanup_keep, keepPart, hh, hn, String.append_assoc]
    rw [he]
    exact data_infix_piece _ _ _
  · intro cfg n hh hn
    have he : Backup.forget_cmd cfg
        = ("RESTIC_PASSWORD='" ++ cfg.password ++ "' restic -r "
             ++ (targetVolume cfg).to_mount_dir cfg ++ " forget "
             ++ keepPart "--keep-hourly " cfg.hourlySnapshots)
          ++ ("--keep-daily " ++ toString n ++ " ")
          ++ (keepPart "--keep-weekly " cfg.weeklySnapshots
              ++ keepPart "--keep-monthly " cfg.monthlySnapshots
              ++ (if cfg.prune then "--prune" else "")) := by
      simp [Backup.forget_cmd, Backup.cleanup_keep, keepPart, hh, hn, String.append_assoc]
    rw [he]
    exact data_infix_piece _ _ _
  · intro cfg n hh hn
    have he : Backup.forget_cmd cfg
        = ("RESTIC_PASSWORD='" ++ cfg.password ++ "' restic -r "
             ++ (targetVolume cfg).to_mount_dir cfg ++ " forget "
             ++ keepPart "--keep-hourly " cfg.hourlySnapshots
             ++ keepPart "--keep-daily " cfg.dailySnapshots)
          ++ ("--keep-weekly " ++ toString n ++ " ")
          ++ (keepPart "--keep-monthly " cfg.monthlySnapshots
              ++ (if cfg.prune then "--prune" else "")) := by
      simp [Backup.forget_cmd, Backup.cleanup_keep, keepPart, hh, hn, String.append_assoc]
    rw [he]
    exact data_infix_piece _ _ _
  · intro cfg n hh hn
    have he : Backup.forget_cmd cfg
        = ("RESTIC_PASSWORD='" ++ cfg.password ++ "' restic -r "
             ++ (targetVolume cfg).to_mount_dir cfg ++ " forget "
             ++ keepPart "--keep-hourly " cfg.hourlySnapshots
             ++ keepPart "--keep-daily " cfg.dailySnapshots
             ++ keepPart "--keep-weekly " cfg.weeklySnapshots)
          ++ ("--keep-monthly " ++ toString n ++ " ")
          ++ (if cfg.prune then "--prune" else "") := by
      simp [Backup.forget_cmd, Backup.cleanup_keep, keepPart, hh, hn, String.append_assoc]
    rw [he]
    exact data_infix_piece _ _ _
  · intro cfg hp
    have he : Backup.forget_cmd cfg
        = ("RESTIC_PASSWORD='" ++ cfg.password ++ "' restic -r "
             ++ (targetVolume cfg).to_mount_dir cfg ++ " forget "
             ++ keepPart "--keep-hourly " cfg.hourlySnapshots
             ++ keepPart "--keep-daily " cfg.dailySnapshots
             ++ keepPart "--keep-weekly " cfg.weeklySnapshots
             ++ keepPart "--keep-monthly " cfg.monthlySnapshots)
          ++ "--prune" ++ "" := by
      simp [Backup.forget_cmd, Backup.cleanup_keep, hp, String.append_assoc]
    rw [he]
    exact data_infix_piece _ _ _

/-- Witness for C8: the hourly-inclusion clause at the example
configuration. -/
theorem C8_retention_flags_witness :
    cfgC8.hourlySnapshots = some 24 ∧ 24 ≠ 0
    ∧ ("--keep-hourly " ++ toString 24 ++ " ").data <:+: (Backup.forget_cmd cfgC8).data :=
  ⟨rfl, by decide, C8_retention_flags.1 cfgC8 24 rfl (by decide)⟩

/-- Configuration whose password is the recognizable string "hunter2". -/
def cfgC6 : Config :=
  { mounts_dir := "/mnt", target_vg := "tvg", target_lv := "tlv", password := "hunter2",
    hourlySnapshots := none, dailySnapshots := none, weeklySnapshots := none,
    monthlySnapshots := none, yearlySnapshots := none, prune := false, sources := [] }

set_option maxRecDepth 10000 in
/-- C6 counterexample: the command-line string built by `__run_backup`
and handed to the process-spawning primitive (`subprocess.Popen(...,
shell=True)`) DOES contain the repository password. -/
theorem C6_password_in_popen_string :
    cfgC6.password = "hunter2"
    ∧ "hunter2".data <:+: (restic_backup_cmd cfgC6 (Snapshot.make exSrc)).data :=
  ⟨rfl, by decide⟩

/-- C6 (amended): the password reaches restic via the environment
variable `RESTIC_PASSWORD`, set through a shell variable-assignment
prefix of the command string — so the password is never a restic
command-line argument, but the full shell command string handed to the
process spawner does contain it, for every configuration. -/
theorem C6_password_via_env_prefix (cfg : Config) (sn : Snapshot) :
    restic_backup_cmd cfg sn
      = "RESTIC_PASSWORD='" ++ cfg.password ++ "' restic -r "
          ++ (targetVolume cfg).to_mount_dir cfg ++ " backup " ++ sn.volume.to_mount_dir cfg
    ∧ cfg.password.data <:+: (restic_backup_cmd cfg sn).data := by
  refine ⟨rfl, ?_⟩
  have he : restic_backup_cmd cfg sn
      = "RESTIC_PASSWORD='" ++ cfg.password
        ++ ("' restic -r " ++ (targetVolume cfg).to_mount_dir cfg ++ " backup "
            ++ sn.volume.to_mount_dir cfg) := by
    simp [restic_backup_cmd, String.append_assoc]
  rw [he]
  exact data_infix_piece _ _ _

/-! ## The volume-manager state model for snapshot idempotency (C9)

The volume manager is an external collaborator (spec section 6); for the
idempotency claim its commands are interpreted against an abstract state,
the list of existing logical volumes as "vg/lv" qualified names:
`lvs` exits 0 iff the volume is present, `lvremove -y vg/lv` deletes it,
and `lvcreate -s -n name vg/lv` creates `vg/name`, failing iff that name
already exists. -/

/-- Abstract volume-manager state: the existing logical volumes as
"vg/lv" names. -/
abbrev LVMState := List String

/-- The qualified name of the snapshot volume of `src`:
`<vg>/<lv>_snapshot`. -/
def snapFullName (src : Source) : String :=
  (Snapshot.make src).volume.vg ++ "/" ++ (Snapshot.make src).volume.lv

/-- `Snapshot.create` with the volume-manager commands interpreted on
`LVMState`: the exists-probe (`lvs`), the conditional removal of a
pre-existing snapshot (`lvremove -y`), then `lvcreate`, which fails
(`none`) iff the name still exists. -/
def Snapshot.createLVM (s : Snapshot) (st : LVMState) : Option LVMState :=
  let name := s.volume.vg ++ "/" ++ s.volume.lv
  let st1 := if name ∈ st then st.filter (fun x => x != name) else st
  if name ∈ st1 then none else some (st1 ++ [name])

lemma createLVM_eq (src : Source) (st : LVMState) :
    Snapshot.createLVM (Snapshot.make src) st
      = some (st.filter (fun x => x != snapFullName src) ++ [snapFullName src]) := by
  by_cases hmem : snapFullName src ∈ st
  · simp only [Snapshot.createLVM, snapFullName] at *
    rw [if_pos hmem]
    rw [if_neg (by simp [List.mem_filter])]
  · have hf : st.filter (fun x => x != snapFullName src) = st := by
      apply List.filter_eq_self.mpr
      intro x hx
      simp only [bne_iff_ne, ne_eq, decide_eq_true_eq]
      intro he
      exact hmem (he ▸ hx)
    simp only [Snapshot.createLVM, snapFullName] at *
    rw [if_neg hmem, if_neg hmem, hf]

lemma createLVM_count (src : Source) (st : LVMState) :
    (st.filter (fun x => x != snapFullName src) ++ [snapFullName src]).count (snapFullName src) = 1 := by
  rw [List.count_append]
  have h0 : (st.filter (fun x => x != snapFullName src)).count (snapFullName src) = 0 := by
    rw [List.count_eq_zero]
    intro hmem
    rcases List.mem_filter.mp hmem with ⟨_, h2⟩
    simp at h2
  simp [h0]

/-- C9: snapshot creation is idempotent with respect to pre-existence:
from any volume-manager state, `create` succeeds (removing a stale
`<lv>_snapshot` first if present, so `lvcreate` never errors due to
pre-existence) and leaves exactly one volume with the snapshot name;
calling it twice still succeeds and still leaves exactly one; and the
creation always issues the `lvcreate` command with the fixed 1 GiB
extent size (` -L 1G `). -/
theorem C9_snapshot_create_idempotent (src : Source) (st : LVMState) :
    Snapshot.createLVM (Snapshot.make src) st
      = some (st.filter (fun x => x != snapFullName src) ++ [snapFullName src])
    ∧ (st.filter (fun x => x != snapFullName src) ++ [snapFullName src]).count (snapFullName src) = 1
    ∧ Snapshot.createLVM (Snapshot.make src)
        (st.filter (fun x => x != snapFullName src) ++ [snapFullName src])
      = some ((st.filter (fun x => x != snapFullName src) ++ [snapFullName src]).filter
                (fun x => x != snapFullName src) ++ [snapFullName src])
    ∧ ((st.filter (fun x => x != snapFullName src) ++ [snapFullName src]).filter
                (fun x => x != snapFullName src) ++ [snapFullName src]).count (snapFullName src) = 1
    ∧ (∀ (env : Env) (t : List Ev),
        Ev.cmd (Snapshot.make src).create_cmd ∈ ((Snapshot.make src).create env t).2)
    ∧ (" -L 1G ").data <:+: (Snapshot.make src).create_cmd.data := by
  refine ⟨createLVM_eq src st, createLVM_count src st, createLVM_eq src _, ?_, ?_, ?_⟩
  · exact createLVM_count src (st.filter (fun x => x != snapFullName src) ++ [snapFullName src])
  · intro env t
    cases hB : (env.exit (Snapshot.make src).volume.lvs_cmd == 0) <;>
      simp [Snapshot.create, LVolume.existsM, LVolume.removeM, M.bind, M.pure,
        runCommand, runCommandRetVal, hB] <;>
      split <;> simp
  · have he : (Snapshot.make src).create_cmd
        = ("lvcreate -s -n " ++ (Snapshot.make src).snapshot_lv) ++ " -L 1G "
          ++ ((Snapshot.make src).source.volume.vg ++ "/" ++ (Snapshot.make src).source.volume.lv) := by
      simp [Snapshot.create_cmd, String.append_assoc]
    rw [he]
    exact data_infix_piece _ _ _

/-- A configuration with every retention count set, including a positive
yearly count. -/
def cfgC10 : Config :=
  { mounts_dir := "/mnt", target_vg := "tvg", target_lv := "tlv", password := "pw",
    hourlySnapshots := some 24, dailySnapshots := some 7, weeklySnapshots := some 2,
    monthlySnapshots := some 12, yearlySnapshots := some 5, prune := true, sources := [] }

set_option maxRecDepth 10000 in
/-- C10: the yearly retention count is carried by the configuration but
never influences the forget command — changing it changes nothing, and
even with yearly set to a positive value (and all other flags present)
the forget command contains no `--keep-yearly` flag. -/
theorem C10_yearly_never_used :
    (∀ (cfg : Config) (y : Option Nat),
        Backup.forget_cmd { cfg with yearlySnapshots := y } = Backup.forget_cmd cfg)
    ∧ cfgC10.yearlySnapshots = some 5
    ∧ ¬ ("--keep-yearly".data <:+: (Backup.forget_cmd cfgC10).data) :=
  ⟨fun _ _ => rfl, rfl, by decide⟩
